import Mathlib

/-! # The `/callback` handler of linebot-gemini-pro-gcp

A shallow embedding of the HTTP handler registered in `src/main.go`
(lines 49-186) and the properties of its event dispatch.

The handler is sequential code over external collaborators: the webhook
parser, the two Gemini calls, the content (blob) API and the reply API.
The collaborators are taken as parameters (`Env`); every outbound call the
handler makes is appended to a list of `Call`s, and each collaborator is
given the calls made so far in the request, so that the same argument may
succeed at one call and fail at the next. Log output is not part of the
embedding: where the source only logs, the embedding does nothing.
-/

namespace LinebotGemini

/-! ## Data model -/

/-- The text `err.Error()` of a Go error returned by a collaborator. -/
abbrev GoError := String

/-- The `[]byte` read from a fetched message content. -/
abbrev Bytes := List UInt8

/-- The error of `webhook.ParseRequest`, as far as the handler looks at it:
`invalidSignature` is `errors.Is(err, webhook.ErrInvalidSignature)`. -/
structure ParseError where
  text : String
  invalidSignature : Bool
deriving DecidableEq, Repr

/-- The fields of `webhook.UserMentionee` the handler reads. -/
structure UserMentionee where
  UserId : String
  IsSelf : Bool
deriving DecidableEq, Repr

/-- An element of `Mention.Mentionees` (a `webhook.MentioneeInterface`), by
what the handler can observe of it: `userPtr m` is a value of dynamic type
`*webhook.UserMentionee`, the type the source asserts at line 102, and its
`GetType()` is "user"; `other kind` is a value of any other dynamic type,
whose `GetType()` is `kind`. So `other "user"` is a value that reports the
type "user" and is not a `*webhook.UserMentionee`: a `webhook.UserMentionee`
held by value, which is how the SDK's parser yields a user mentionee (as it
yields the events, messages and sources that the switches of lines 67-72
match by value); the handler never gets to read its fields. -/
inductive MentioneeInterface where
  | userPtr (m : UserMentionee)
  | other (kind : String)
deriving DecidableEq, Repr

/-- The method `GetType()` of a mentionee. -/
def MentioneeInterface.GetType : MentioneeInterface → String
  | .userPtr _ => "user"
  | .other kind => kind

/-- The type assertion `mention.(*webhook.UserMentionee)` of line 102:
`none` where Go panics because the dynamic type is another one. -/
def MentioneeInterface.assertUserMentionee : MentioneeInterface → Option UserMentionee
  | .userPtr m => some m
  | .other _ => none

/-- The struct `webhook.Mention`. -/
structure Mention where
  Mentionees : List MentioneeInterface
deriving DecidableEq, Repr

/-- The dynamic type of `e.Source`, as the type switch of line 71 tells
them apart; `other` is every type the switch has no case for. -/
inductive Source where
  | UserSource (UserId : String)
  | GroupSource (GroupId : String) (UserId : String)
  | RoomSource (RoomId : String) (UserId : String)
  | other
deriving DecidableEq, Repr

/-- The dynamic type of `e.Message`, as the type switch of line 69 tells
them apart. `Mention` is the pointer field `message.Mention`: `none` is the
nil pointer of a text message that carries no mention object. `other` is
every content the switch sends to its `default` case. -/
inductive MessageContent where
  | TextMessageContent (Text : String) (Mention : Option Mention)
  | StickerMessageContent (StickerId : String) (StickerResourceType : String)
  | ImageMessageContent (Id : String)
  | other
deriving DecidableEq, Repr

/-- An element of `cb.Events`, as the type switch of line 67 tells them
apart; `other` is every event the switch sends to its `default` case. -/
inductive Event where
  | MessageEvent (ReplyToken : String) (Source : Source) (Message : MessageContent)
  | other
deriving DecidableEq, Repr

/-- The struct `webhook.CallbackRequest` returned by a successful parse. -/
structure CallbackRequest where
  Events : List Event
deriving DecidableEq, Repr

/-- The struct `messaging_api.TextMessage`, the only message the handler sends. -/
structure TextMessage where
  Text : String
deriving DecidableEq, Repr

/-- The struct `messaging_api.ReplyMessageRequest`. -/
structure ReplyMessageRequest where
  ReplyToken : String
  Messages : List TextMessage
deriving DecidableEq, Repr

/-- The response of `blob.GetMessageContent`: `Body` is what
`io.ReadAll(content.Body)` yields when the body is read to its end. -/
structure HttpResponse where
  Body : Except GoError Bytes

/-- An outbound call of the handler, with its argument. -/
inductive Call where
  | GeminiChat (text : String)
  | GetMessageContent (messageId : String)
  | GeminiImage (data : Bytes)
  | ReplyMessage (req : ReplyMessageRequest)
deriving DecidableEq, Repr

/-- The collaborators of the handler. `R` is the response type of
`GeminiChat`. Every collaborator reads the calls made so far in the request
as its first argument. `GeminiChat`, `GeminiImage` and `printResponse` are
functions of this repository that `src/main.go` calls and does not define. -/
structure Env (R : Type) where
  GeminiChat : List Call → String → Except GoError R
  printResponse : R → String
  GetMessageContent : List Call → String → Except GoError HttpResponse
  GeminiImage : List Call → Bytes → Except GoError String
  ReplyMessage : List Call → ReplyMessageRequest → Except GoError Unit

/-- How the handler function ends: `returned` is a normal return, `panicked`
a Go run-time panic (net/http recovers it and closes the connection),
`exited` the `os.Exit(1)` of `log.Fatal`, which ends the process. -/
inductive Exit where
  | returned
  | panicked
  | exited
deriving DecidableEq, Repr

/-- The control flow after one event of the loop of line 64: `next` goes on
with the next event, `stop` leaves the handler. -/
inductive Flow where
  | next
  | stop (how : Exit)
deriving DecidableEq, Repr

/-- What a run of the handler leaves: the outbound calls in the order they
were made, the status given to `w.WriteHeader` (`none` when it was never
called; net/http then answers 200), and how the handler ended. -/
structure Result where
  calls : List Call
  header : Option Nat
  exit : Exit
deriving DecidableEq, Repr

/-! ## The handler -/

/-- The greeting of line 111. -/
def greeting : String := "你好，我是 Gemini Chat Bot，請問有什麼可以幫助您的嗎？"

/-- The text of line 163 that precedes `err.Error()`. -/
def imageErrorText : String := "無法辨識圖片內容，請重新輸入:"

/-- The `fmt.Sprintf` of lines 132-133; both arguments are strings. -/
def stickerReply (StickerId StickerResourceType : String) : String :=
  "sticker id is " ++ StickerId ++ ", stickerResourceType is " ++ StickerResourceType

/-- The call `bot.ReplyMessage` with one text message (lines 80-93, 106-119,
134-146, 165-177): the request is sent, and its result is only logged. -/
def replyText {R : Type} (env : Env R) (tr : List Call) (ReplyToken Text : String) : List Call :=
  let req : ReplyMessageRequest := { ReplyToken := ReplyToken, Messages := [{ Text := Text }] }
  match env.ReplyMessage tr req with
  | .error _ => tr ++ [Call.ReplyMessage req]
  | .ok _ => tr ++ [Call.ReplyMessage req]

/-- The loop over `message.Mention.Mentionees` (lines 98-124). -/
def scanMentionees {R : Type} (env : Env R) (tr : List Call) (ReplyToken : String) :
    List MentioneeInterface → List Call × Flow
  | [] => (tr, Flow.next)
  | mention :: rest =>
    if mention.GetType = "user" then
      match mention.assertUserMentionee with
      | none => (tr, Flow.stop Exit.panicked)
      | some botMention =>
        if botMention.IsSelf then
          (replyText env tr ReplyToken greeting, Flow.stop Exit.returned)
        else scanMentionees env tr ReplyToken rest
    else scanMentionees env tr ReplyToken rest

/-- The body of the loop of line 64 for one event (lines 65-184). -/
def handleEvent {R : Type} (env : Env R) (tr : List Call) : Event → List Call × Flow
  | Event.MessageEvent ReplyToken source message =>
    match message with
    | MessageContent.TextMessageContent Text mention =>
      match source with
      | Source.UserSource _ =>
        match env.GeminiChat tr Text with
        | .error _ => (tr ++ [Call.GeminiChat Text], Flow.next)
        | .ok res =>
          (replyText env (tr ++ [Call.GeminiChat Text]) ReplyToken (env.printResponse res),
            Flow.stop Exit.returned)
      | Source.GroupSource _ _ =>
        match mention with
        | none => (tr, Flow.stop Exit.panicked)
        | some m => scanMentionees env tr ReplyToken m.Mentionees
      | Source.RoomSource _ _ => (tr, Flow.next)
      | Source.other => (tr, Flow.next)
    | MessageContent.StickerMessageContent StickerId StickerResourceType =>
      (replyText env tr ReplyToken (stickerReply StickerId StickerResourceType), Flow.next)
    | MessageContent.ImageMessageContent Id =>
      match env.GetMessageContent tr Id with
      | .error _ => (tr ++ [Call.GetMessageContent Id], Flow.stop Exit.returned)
      | .ok content =>
        match content.Body with
        | .error _ => (tr ++ [Call.GetMessageContent Id], Flow.stop Exit.exited)
        | .ok data =>
          let tr1 := tr ++ [Call.GetMessageContent Id]
          let ret :=
            match env.GeminiImage tr1 data with
            | .error err => imageErrorText ++ err
            | .ok ret => ret
          (replyText env (tr1 ++ [Call.GeminiImage data]) ReplyToken ret, Flow.next)
    | MessageContent.other => (tr, Flow.next)
  | Event.other => (tr, Flow.next)

/-- The loop of line 64 over `cb.Events`, from the calls made so far. -/
def handleEvents {R : Type} (env : Env R) (tr : List Call) : List Event → List Call × Exit
  | [] => (tr, Exit.returned)
  | event :: rest =>
    match handleEvent env tr event with
    | (tr1, Flow.next) => handleEvents env tr1 rest
    | (tr1, Flow.stop how) => (tr1, how)

/-- The handler of `/callback` (lines 49-186), on the result `parsed` of
`webhook.ParseRequest(channelSecret, req)`. -/
def callback {R : Type} (env : Env R) (parsed : Except ParseError CallbackRequest) : Result :=
  match parsed with
  | .error err =>
    { calls := [], header := some (if err.invalidSignature then 400 else 500),
      exit := Exit.returned }
  | .ok cb =>
    let out := handleEvents env [] cb.Events
    { calls := out.1, header := none, exit := out.2 }

/-! ## Reading a list of calls -/

/-- The arguments of the `GeminiChat` calls of a list of calls, in order. -/
def chatTexts (cs : List Call) : List String :=
  cs.filterMap fun c => match c with
    | Call.GeminiChat text => some text
    | _ => none

/-- The arguments of the `GeminiImage` calls of a list of calls, in order. -/
def imageInputs (cs : List Call) : List Bytes :=
  cs.filterMap fun c => match c with
    | Call.GeminiImage data => some data
    | _ => none

/-- The requests of the `ReplyMessage` calls of a list of calls, in order. -/
def replies (cs : List Call) : List ReplyMessageRequest :=
  cs.filterMap fun c => match c with
    | Call.ReplyMessage req => some req
    | _ => none

/-- The reply tokens of the `ReplyMessage` calls of a list of calls, in order. -/
def replyTokens (cs : List Call) : List String :=
  (replies cs).map fun req => req.ReplyToken

/-- The reply token of an event, when it has one. -/
def Event.token? : Event → Option String
  | Event.MessageEvent ReplyToken _ _ => some ReplyToken
  | Event.other => none

/-- The reply tokens of the events of a batch, in arrival order. -/
def eventTokens (evs : List Event) : List String :=
  evs.filterMap Event.token?

/-! ## Collaborators for the concrete runs -/

/-- Collaborators that all succeed: the chat answers "re:" followed by the
prompt, the content is three bytes, the image is described as "a cat". -/
def envOk : Env String where
  GeminiChat := fun _ text => .ok ("re:" ++ text)
  printResponse := fun res => res
  GetMessageContent := fun _ _ => .ok { Body := .ok [1, 2, 3] }
  GeminiImage := fun _ _ => .ok "a cat"
  ReplyMessage := fun _ _ => .ok ()

/-- The collaborators of `envOk` with a reply API that fails at every call. -/
def envReplyFails : Env String :=
  { envOk with ReplyMessage := fun _ _ => .error "reply failed" }

/-- The collaborators of `envOk` with a text-mode AI call that fails. -/
def envChatFails : Env String :=
  { envOk with GeminiChat := fun _ _ => .error "deadline exceeded" }

/-- The collaborators of `envOk` with an image-mode AI call that fails. -/
def envImageFails : Env String :=
  { envOk with GeminiImage := fun _ _ => .error "quota exceeded" }

/-- The collaborators of `envOk` with a content whose body cannot be read. -/
def envReadFails : Env String :=
  { envOk with GetMessageContent := fun _ _ => .ok { Body := .error "unexpected EOF" } }

/-! ## Lemmas on the handler -/

theorem replyText_eq {R : Type} (env : Env R) (tr : List Call) (ReplyToken Text : String) :
    replyText env tr ReplyToken Text =
      tr ++ [Call.ReplyMessage { ReplyToken := ReplyToken, Messages := [{ Text := Text }] }] := by
  simp only [replyText]
  split <;> rfl

/-- The scan of a mention list in which no mentionee reports the type "user"
makes no call and lets the loop go on. -/
theorem scanMentionees_no_user {R : Type} (env : Env R) (tr : List Call) (ReplyToken : String)
    (ms : List MentioneeInterface) (hms : ∀ m ∈ ms, m.GetType ≠ "user") :
    scanMentionees env tr ReplyToken ms = (tr, Flow.next) := by
  induction ms with
  | nil => rfl
  | cons m ms ih =>
    have ih1 := ih (fun x hx => hms x (List.mem_cons_of_mem m hx))
    have hm := hms m (List.mem_cons_self _ _)
    simpa [scanMentionees, hm] using ih1

/-- The scan of a mention list of values that are no `*webhook.UserMentionee`
panics, without any call, when one of them reports the type "user". -/
theorem scanMentionees_other_user {R : Type} (env : Env R) (tr : List Call)
    (ReplyToken : String) (kinds : List String) (huser : "user" ∈ kinds) :
    scanMentionees env tr ReplyToken (kinds.map MentioneeInterface.other) =
      (tr, Flow.stop Exit.panicked) := by
  induction kinds with
  | nil => simp at huser
  | cons kind kinds ih =>
    by_cases hk : kind = "user"
    · simp [scanMentionees, MentioneeInterface.GetType,
        MentioneeInterface.assertUserMentionee, hk]
    · have hin : "user" ∈ kinds := by
        rcases List.mem_cons.1 huser with h | h
        · exact absurd h.symm hk
        · exact h
      simpa [scanMentionees, MentioneeInterface.GetType, hk] using ih hin

/-- The scan of a mention list makes no call or the one greeting reply. -/
theorem scanMentionees_calls {R : Type} (env : Env R) (tr : List Call) (ReplyToken : String)
    (ms : List MentioneeInterface) :
    (scanMentionees env tr ReplyToken ms).1 = tr ∨
    (scanMentionees env tr ReplyToken ms).1 =
      tr ++ [Call.ReplyMessage { ReplyToken := ReplyToken, Messages := [{ Text := greeting }] }] := by
  induction ms with
  | nil => left; rfl
  | cons m ms ih =>
    unfold scanMentionees
    split
    · split
      · left; rfl
      · split
        · right; simp [replyText_eq]
        · exact ih
    · exact ih

/-- The calls one event adds to the calls made before it: they hold no reply,
or one reply, with one text message and the reply token of the event. -/
theorem handleEvent_calls {R : Type} (env : Env R) (tr : List Call) (ev : Event) :
    ∃ cs, (handleEvent env tr ev).1 = tr ++ cs ∧
      (replies cs = [] ∨ ∃ tok text, ev.token? = some tok ∧
        replies cs = [{ ReplyToken := tok, Messages := [{ Text := text }] }]) := by
  cases ev with
  | other => exact ⟨[], by simp [handleEvent], Or.inl rfl⟩
  | MessageEvent tok source message =>
    cases message with
    | other => exact ⟨[], by simp [handleEvent], Or.inl rfl⟩
    | StickerMessageContent id t =>
      exact ⟨[Call.ReplyMessage
          { ReplyToken := tok, Messages := [{ Text := stickerReply id t }] }],
        by simp only [handleEvent, replyText_eq],
        Or.inr ⟨tok, stickerReply id t, rfl, by simp [replies]⟩⟩
    | ImageMessageContent id =>
      cases hf : env.GetMessageContent tr id with
      | error e =>
        exact ⟨[Call.GetMessageContent id], by simp [handleEvent, hf], Or.inl (by simp [replies])⟩
      | ok content =>
        cases hr : content.Body with
        | error e =>
          exact ⟨[Call.GetMessageContent id], by simp [handleEvent, hf, hr],
            Or.inl (by simp [replies])⟩
        | ok data =>
          cases hg : env.GeminiImage (tr ++ [Call.GetMessageContent id]) data with
          | error err =>
            exact ⟨[Call.GetMessageContent id, Call.GeminiImage data,
                Call.ReplyMessage
                  { ReplyToken := tok, Messages := [{ Text := imageErrorText ++ err }] }],
              by simp [handleEvent, hf, hr, hg, replyText_eq],
              Or.inr ⟨tok, imageErrorText ++ err, rfl, by simp [replies]⟩⟩
          | ok ret =>
            exact ⟨[Call.GetMessageContent id, Call.GeminiImage data,
                Call.ReplyMessage { ReplyToken := tok, Messages := [{ Text := ret }] }],
              by simp [handleEvent, hf, hr, hg, replyText_eq],
              Or.inr ⟨tok, ret, rfl, by simp [replies]⟩⟩
    | TextMessageContent text mention =>
      cases source with
      | RoomSource r u => exact ⟨[], by simp [handleEvent], Or.inl rfl⟩
      | other => exact ⟨[], by simp [handleEvent], Or.inl rfl⟩
      | UserSource u =>
        cases hc : env.GeminiChat tr text with
        | error e =>
          exact ⟨[Call.GeminiChat text], by simp [handleEvent, hc], Or.inl (by simp [replies])⟩
        | ok res =>
          exact ⟨[Call.GeminiChat text, Call.ReplyMessage
              { ReplyToken := tok, Messages := [{ Text := env.printResponse res }] }],
            by simp [handleEvent, hc, replyText_eq],
            Or.inr ⟨tok, env.printResponse res, rfl, by simp [replies]⟩⟩
      | GroupSource g u =>
        cases mention with
        | none => exact ⟨[], by simp [handleEvent], Or.inl rfl⟩
        | some m =>
          rcases scanMentionees_calls env tr tok m.Mentionees with h | h
          · exact ⟨[], by simp [handleEvent, h], Or.inl rfl⟩
          · exact ⟨[Call.ReplyMessage
                { ReplyToken := tok, Messages := [{ Text := greeting }] }],
              by simp only [handleEvent, h], Or.inr ⟨tok, greeting, rfl, by simp [replies]⟩⟩

/-- The reply tokens of a run of the loop are the reply tokens used before
it, followed by a sublist of the reply tokens of the events. -/
theorem handleEvents_replyTokens {R : Type} (env : Env R) (evs : List Event) (tr : List Call) :
    ∃ s, replyTokens (handleEvents env tr evs).1 = replyTokens tr ++ s ∧
      List.Sublist s (eventTokens evs) := by
  induction evs generalizing tr with
  | nil => exact ⟨[], by simp [handleEvents], List.Sublist.refl _⟩
  | cons ev rest ih =>
    obtain ⟨cs, hcs, hrep⟩ := handleEvent_calls env tr ev
    have hone : List.Sublist (replyTokens cs) (ev.token?.toList) := by
      rcases hrep with h | ⟨tok, text, htok, h⟩
      · simp [replyTokens, h]
      · simp [replyTokens, h, htok]
    have hev : eventTokens (ev :: rest) = ev.token?.toList ++ eventTokens rest := by
      cases h : ev.token? <;> simp [eventTokens, List.filterMap_cons, h]
    unfold handleEvents
    generalize hE : handleEvent env tr ev = out at hcs
    obtain ⟨tr1, flow⟩ := out
    simp only at hcs
    subst hcs
    cases flow with
    | next =>
      obtain ⟨s, hs, hsub⟩ := ih (tr ++ cs)
      refine ⟨replyTokens cs ++ s, ?_, ?_⟩
      · simp only [hs]
        simp [replyTokens, replies, List.filterMap_append]
      · rw [hev]
        exact List.Sublist.append hone hsub
    | stop how =>
      refine ⟨replyTokens cs, ?_, ?_⟩
      · simp [replyTokens, replies, List.filterMap_append]
      · rw [hev]
        exact hone.trans (List.sublist_append_left _ _)

/-- The scan of a mention list does not depend on the reply API. -/
theorem scanMentionees_reply_irrelevant {R : Type} (env : Env R)
    (f : List Call → ReplyMessageRequest → Except GoError Unit) (tr : List Call)
    (ReplyToken : String) (ms : List MentioneeInterface) :
    scanMentionees { env with ReplyMessage := f } tr ReplyToken ms =
      scanMentionees env tr ReplyToken ms := by
  induction ms with
  | nil => rfl
  | cons m ms ih => simp only [scanMentionees, replyText_eq, ih]

/-- The handling of one event does not depend on the reply API. -/
theorem handleEvent_reply_irrelevant {R : Type} (env : Env R)
    (f : List Call → ReplyMessageRequest → Except GoError Unit) (tr : List Call) (ev : Event) :
    handleEvent { env with ReplyMessage := f } tr ev = handleEvent env tr ev := by
  cases ev with
  | other => rfl
  | MessageEvent tok source message =>
    cases message with
    | other => rfl
    | StickerMessageContent id t => simp only [handleEvent, replyText_eq]
    | ImageMessageContent id => simp only [handleEvent, replyText_eq]
    | TextMessageContent text mention =>
      cases source with
      | RoomSource r u => rfl
      | other => rfl
      | UserSource u => simp only [handleEvent, replyText_eq]
      | GroupSource g u =>
        cases mention with
        | none => rfl
        | some m => simp only [handleEvent, scanMentionees_reply_irrelevant]

/-- The loop over the events does not depend on the reply API. -/
theorem handleEvents_reply_irrelevant {R : Type} (env : Env R)
    (f : List Call → ReplyMessageRequest → Except GoError Unit) (evs : List Event)
    (tr : List Call) :
    handleEvents { env with ReplyMessage := f } tr evs = handleEvents env tr evs := by
  induction evs generalizing tr with
  | nil => rfl
  | cons ev rest ih =>
    simp only [handleEvents, handleEvent_reply_irrelevant]
    cases handleEvent env tr ev with
    | mk tr1 flow => cases flow <;> simp [ih]

/-! ## Parse failure -/

/-- C1: when `webhook.ParseRequest` fails, the handler makes no outbound call,
returns before the event loop without consulting any collaborator, and
writes status 400 when the error is the invalid-signature error and 500 for
every other error. -/
theorem callback_parse_error {R : Type} (env : Env R) (err : ParseError) :
    (callback env (.error err)).calls = [] ∧
    (callback env (.error err)).exit = Exit.returned ∧
    (∀ env2 : Env R, callback env2 (.error err) = callback env (.error err)) ∧
    (err.invalidSignature = true → (callback env (.error err)).header = some 400) ∧
    (err.invalidSignature = false → (callback env (.error err)).header = some 500) := by
  refine ⟨rfl, rfl, fun _ => rfl, ?_, ?_⟩ <;> intro h <;> simp [callback, h]

/-- C1, at a request with a bad signature and at a request with a malformed
body. -/
theorem callback_parse_error_witness :
    (callback envOk (.error { text := "invalid signature", invalidSignature := true })).header
      = some 400 ∧
    (callback envOk
      (.error { text := "unexpected end of JSON input", invalidSignature := false })).header
      = some 500 ∧
    (callback envOk (.error { text := "invalid signature", invalidSignature := true })).calls
      = [] :=
  ⟨(callback_parse_error envOk
      { text := "invalid signature", invalidSignature := true }).2.2.2.1 rfl,
   (callback_parse_error envOk
      { text := "unexpected end of JSON input", invalidSignature := false }).2.2.2.2 rfl,
   (callback_parse_error envOk { text := "invalid signature", invalidSignature := true }).1⟩

/-! ## Sticker messages -/

/-- C2: a sticker message event, whatever its source, is answered by one
reply with the event's reply token and exactly one text message, whose text
is "sticker id is " ++ id ++ ", stickerResourceType is " ++ t; no other call
(so no AI call) is made, and the loop goes on. -/
theorem sticker_reply {R : Type} (env : Env R) (tr : List Call) (ReplyToken : String)
    (source : Source) (id t : String) :
    handleEvent env tr
        (Event.MessageEvent ReplyToken source (MessageContent.StickerMessageContent id t)) =
      (tr ++ [Call.ReplyMessage
          { ReplyToken := ReplyToken,
            Messages := [{ Text := "sticker id is " ++ id ++ ", stickerResourceType is " ++ t }] }],
        Flow.next) := by
  simp [handleEvent, replyText_eq, stickerReply]

/-! ## Image messages -/

/-- C3: for an image message event whose content was fetched and read, the
handler replies once with the event's reply token: with the text
"無法辨識圖片內容，請重新輸入:" ++ E when the image-mode AI call fails with an
error whose text is E, and with the description D when the call returns D. -/
theorem image_reply {R : Type} (env : Env R) (tr : List Call) (ReplyToken : String)
    (source : Source) (Id : String) (content : HttpResponse) (data : Bytes)
    (hfetch : env.GetMessageContent tr Id = .ok content)
    (hread : content.Body = .ok data) :
    (∀ E : GoError, env.GeminiImage (tr ++ [Call.GetMessageContent Id]) data = .error E →
      handleEvent env tr
          (Event.MessageEvent ReplyToken source (MessageContent.ImageMessageContent Id)) =
        (tr ++ [Call.GetMessageContent Id, Call.GeminiImage data,
            Call.ReplyMessage
              { ReplyToken := ReplyToken,
                Messages := [{ Text := "無法辨識圖片內容，請重新輸入:" ++ E }] }],
          Flow.next)) ∧
    (∀ D : String, env.GeminiImage (tr ++ [Call.GetMessageContent Id]) data = .ok D →
      handleEvent env tr
          (Event.MessageEvent ReplyToken source (MessageContent.ImageMessageContent Id)) =
        (tr ++ [Call.GetMessageContent Id, Call.GeminiImage data,
            Call.ReplyMessage { ReplyToken := ReplyToken, Messages := [{ Text := D }] }],
          Flow.next)) := by
  constructor <;> intro x hx <;>
    simp [handleEvent, hfetch, hread, hx, replyText_eq, imageErrorText]

/-- C3, at an image whose description fails with "quota exceeded" and at an
image described as "a cat". -/
theorem image_reply_witness :
    handleEvent envImageFails []
        (Event.MessageEvent "tok" (Source.UserSource "U1")
          (MessageContent.ImageMessageContent "m1")) =
      ([Call.GetMessageContent "m1", Call.GeminiImage [1, 2, 3],
          Call.ReplyMessage
            { ReplyToken := "tok",
              Messages := [{ Text := "無法辨識圖片內容，請重新輸入:quota exceeded" }] }],
        Flow.next) ∧
    handleEvent envOk []
        (Event.MessageEvent "tok" (Source.GroupSource "G1" "U1")
          (MessageContent.ImageMessageContent "m1")) =
      ([Call.GetMessageContent "m1", Call.GeminiImage [1, 2, 3],
          Call.ReplyMessage { ReplyToken := "tok", Messages := [{ Text := "a cat" }] }],
        Flow.next) :=
  ⟨(image_reply envImageFails [] "tok" (Source.UserSource "U1") "m1"
      { Body := .ok [1, 2, 3] } [1, 2, 3] rfl rfl).1 "quota exceeded" rfl,
   (image_reply envOk [] "tok" (Source.GroupSource "G1" "U1") "m1"
      { Body := .ok [1, 2, 3] } [1, 2, 3] rfl rfl).2 "a cat" rfl⟩

/-! ## Text messages -/

/-- C4, at its failing inputs: a user mentionee comes out of the parser as a
`webhook.UserMentionee` held by value, here `other "user"`. For a text
message event from a Group source whose mention list, made of such values,
holds a user mentionee (the bot itself, flagged as self, included), the type
assertion of line 102 panics at the first of them: the greeting is not sent,
no call is made, and the later events of the batch are not dispatched. -/
theorem group_user_mention_panics {R : Type} (env : Env R) (tr : List Call)
    (ReplyToken GroupId UserId Text : String) (kinds : List String) (rest : List Event)
    (huser : "user" ∈ kinds) :
    handleEvents env tr
        (Event.MessageEvent ReplyToken (Source.GroupSource GroupId UserId)
          (MessageContent.TextMessageContent Text
            (some { Mentionees := kinds.map MentioneeInterface.other })) :: rest) =
      (tr, Exit.panicked) := by
  simp [handleEvents, handleEvent, scanMentionees_other_user env tr ReplyToken kinds huser]

/-- C4, at the group message "@bot hello", whose one mentionee is the bot. -/
theorem group_user_mention_panics_witness :
    callback envOk (.ok { Events :=
        [Event.MessageEvent "tok" (Source.GroupSource "G1" "U1")
          (MessageContent.TextMessageContent "@bot hello"
            (some { Mentionees := [MentioneeInterface.other "user"] }))] }) =
      { calls := [], header := none, exit := Exit.panicked } := by
  have h := group_user_mention_panics envOk [] "tok" "G1" "U1" "@bot hello" ["user"] []
    (by decide)
  simp only [List.map] at h
  simp only [callback, h]

/-- C5: for a successfully parsed callback whose batch is one text message
event from a DirectUser source with text T, `GeminiChat` is called exactly
once, with T, `GeminiImage` is not called, and a reply is issued exactly
when that call succeeds (then one reply, with the event's reply token and
the text printed from the response). -/
theorem direct_text_single {R : Type} (env : Env R) (ReplyToken UserId T : String)
    (mention : Option Mention) :
    chatTexts (callback env (.ok { Events :=
        [Event.MessageEvent ReplyToken (Source.UserSource UserId)
          (MessageContent.TextMessageContent T mention)] })).calls = [T] ∧
    imageInputs (callback env (.ok { Events :=
        [Event.MessageEvent ReplyToken (Source.UserSource UserId)
          (MessageContent.TextMessageContent T mention)] })).calls = [] ∧
    (replies (callback env (.ok { Events :=
        [Event.MessageEvent ReplyToken (Source.UserSource UserId)
          (MessageContent.TextMessageContent T mention)] })).calls ≠ [] ↔
      ∃ res, env.GeminiChat [] T = .ok res) ∧
    (∀ res, env.GeminiChat [] T = .ok res →
      replies (callback env (.ok { Events :=
        [Event.MessageEvent ReplyToken (Source.UserSource UserId)
          (MessageContent.TextMessageContent T mention)] })).calls =
        [{ ReplyToken := ReplyToken, Messages := [{ Text := env.printResponse res }] }]) := by
  cases h : env.GeminiChat [] T with
  | error e => simp [callback, handleEvents, handleEvent, h, chatTexts, imageInputs, replies]
  | ok r =>
    simp [callback, handleEvents, handleEvent, h, replyText_eq, chatTexts, imageInputs, replies]

/-- C5, at the message "hi" with an AI call that succeeds. -/
theorem direct_text_single_witness :
    (callback envOk (.ok { Events :=
        [Event.MessageEvent "tok" (Source.UserSource "U1")
          (MessageContent.TextMessageContent "hi" none)] })).calls =
      [Call.GeminiChat "hi",
        Call.ReplyMessage { ReplyToken := "tok", Messages := [{ Text := "re:hi" }] }] ∧
    replies (callback envOk (.ok { Events :=
        [Event.MessageEvent "tok" (Source.UserSource "U1")
          (MessageContent.TextMessageContent "hi" none)] })).calls =
      [{ ReplyToken := "tok", Messages := [{ Text := envOk.printResponse "re:hi" }] }] :=
  ⟨rfl, (direct_text_single envOk "tok" "U1" "hi" none).2.2.2 "re:hi" rfl⟩

/-- C6: in a batch of two text message events from DirectUser sources, when
the AI call of the first succeeds and its reply is delivered, the handler
stops after the first event: `GeminiChat` is called once, with the first
text, one reply is issued, with the first reply token, and the second event
causes no call. -/
theorem two_direct_texts_stop {R : Type} (env : Env R) (ReplyToken1 UserId1 T1 : String)
    (mention1 : Option Mention) (ReplyToken2 UserId2 T2 : String) (mention2 : Option Mention)
    (res : R) (hchat : env.GeminiChat [] T1 = .ok res)
    (hreply : env.ReplyMessage [Call.GeminiChat T1]
      { ReplyToken := ReplyToken1, Messages := [{ Text := env.printResponse res }] } = .ok ()) :
    callback env (.ok { Events :=
        [Event.MessageEvent ReplyToken1 (Source.UserSource UserId1)
            (MessageContent.TextMessageContent T1 mention1),
          Event.MessageEvent ReplyToken2 (Source.UserSource UserId2)
            (MessageContent.TextMessageContent T2 mention2)] }) =
      { calls := [Call.GeminiChat T1,
          Call.ReplyMessage
            { ReplyToken := ReplyToken1, Messages := [{ Text := env.printResponse res }] }],
        header := none, exit := Exit.returned } := by
  simp [callback, handleEvents, handleEvent, hchat, replyText, hreply]

/-- C6, at the batch of the messages "hi" and "there". -/
theorem two_direct_texts_stop_witness :
    callback envOk (.ok { Events :=
        [Event.MessageEvent "tok1" (Source.UserSource "U1")
            (MessageContent.TextMessageContent "hi" none),
          Event.MessageEvent "tok2" (Source.UserSource "U1")
            (MessageContent.TextMessageContent "there" none)] }) =
      { calls := [Call.GeminiChat "hi",
          Call.ReplyMessage
            { ReplyToken := "tok1", Messages := [{ Text := envOk.printResponse "re:hi" }] }],
        header := none, exit := Exit.returned } :=
  two_direct_texts_stop envOk "tok1" "U1" "hi" none "tok2" "U1" "there" none "re:hi" rfl rfl

/-! ## Errors and the end of a batch -/

/-- C7, as stated, fails: it is not so that after every event either the
later events are dispatched or the event was a DirectUser text whose AI call
succeeded and whose reply was delivered. With a reply API that fails, the
batch of a DirectUser text "hi" and a sticker ends after the failed reply to
the text, and the sticker is not dispatched. -/
theorem reply_failure_ends_batch :
    ¬ ∀ (env : Env String) (tr : List Call) (event : Event) (rest : List Event),
      handleEvents env tr (event :: rest) =
          handleEvents env (handleEvent env tr event).1 rest ∨
        ∃ ReplyToken UserId T mention res,
          event = Event.MessageEvent ReplyToken (Source.UserSource UserId)
            (MessageContent.TextMessageContent T mention) ∧
          env.GeminiChat tr T = .ok res ∧
          env.ReplyMessage (tr ++ [Call.GeminiChat T])
            { ReplyToken := ReplyToken, Messages := [{ Text := env.printResponse res }] }
              = .ok () := by
  intro h
  rcases h envReplyFails []
      (Event.MessageEvent "tok1" (Source.UserSource "U1")
        (MessageContent.TextMessageContent "hi" none))
      [Event.MessageEvent "tok2" (Source.UserSource "U1")
        (MessageContent.StickerMessageContent "52002734" "STATIC")] with
    h1 | ⟨_, _, _, _, _, _, _, h2⟩
  · exact absurd h1 (by decide)
  · simp [envReplyFails] at h2

/-- C7, amended: a failing AI call does not abort the batch (after a
DirectUser text whose AI call fails no reply is sent and the later events
are dispatched; after an image whose AI call fails the error text is replied
and the later events are dispatched); the outcome of the reply calls changes
nothing in what the handler does; a sticker reply and an image reply,
delivered or not, are followed by the later events; the batch ends after
every DirectUser reply attempt, delivered or not. That is the only early
termination of a batch: after every event the later events are dispatched,
unless the event is a DirectUser text whose AI call succeeded, or one of the
events about which nothing is said here (a Group text without a mention
object or with a mentionee that reports the type "user", an image whose
content is not fetched and read). -/
theorem errors_and_batch_end {R : Type} (env : Env R) :
    (∀ (tr : List Call) (ReplyToken UserId T : String) (mention : Option Mention)
        (rest : List Event) (E : GoError),
      env.GeminiChat tr T = .error E →
      handleEvents env tr
          (Event.MessageEvent ReplyToken (Source.UserSource UserId)
            (MessageContent.TextMessageContent T mention) :: rest) =
        handleEvents env (tr ++ [Call.GeminiChat T]) rest) ∧
    (∀ (tr : List Call) (ReplyToken : String) (source : Source) (Id : String)
        (content : HttpResponse) (data : Bytes) (rest : List Event) (E : GoError),
      env.GetMessageContent tr Id = .ok content → content.Body = .ok data →
      env.GeminiImage (tr ++ [Call.GetMessageContent Id]) data = .error E →
      handleEvents env tr
          (Event.MessageEvent ReplyToken source (MessageContent.ImageMessageContent Id) :: rest) =
        handleEvents env
          (tr ++ [Call.GetMessageContent Id, Call.GeminiImage data,
            Call.ReplyMessage
              { ReplyToken := ReplyToken, Messages := [{ Text := imageErrorText ++ E }] }])
          rest) ∧
    (∀ (f : List Call → ReplyMessageRequest → Except GoError Unit) (tr : List Call)
        (evs : List Event),
      handleEvents { env with ReplyMessage := f } tr evs = handleEvents env tr evs) ∧
    (∀ (tr : List Call) (ReplyToken : String) (source : Source)
        (StickerId StickerResourceType : String) (rest : List Event),
      handleEvents env tr
          (Event.MessageEvent ReplyToken source
            (MessageContent.StickerMessageContent StickerId StickerResourceType) :: rest) =
        handleEvents env
          (tr ++ [Call.ReplyMessage
            { ReplyToken := ReplyToken,
              Messages := [{ Text := stickerReply StickerId StickerResourceType }] }])
          rest) ∧
    (∀ (tr : List Call) (ReplyToken : String) (source : Source) (Id : String)
        (content : HttpResponse) (data : Bytes) (rest : List Event) (D : String),
      env.GetMessageContent tr Id = .ok content → content.Body = .ok data →
      env.GeminiImage (tr ++ [Call.GetMessageContent Id]) data = .ok D →
      handleEvents env tr
          (Event.MessageEvent ReplyToken source (MessageContent.ImageMessageContent Id) :: rest) =
        handleEvents env
          (tr ++ [Call.GetMessageContent Id, Call.GeminiImage data,
            Call.ReplyMessage { ReplyToken := ReplyToken, Messages := [{ Text := D }] }])
          rest) ∧
    (∀ (tr : List Call) (ReplyToken UserId T : String) (mention : Option Mention)
        (rest : List Event) (res : R),
      env.GeminiChat tr T = .ok res →
      handleEvents env tr
          (Event.MessageEvent ReplyToken (Source.UserSource UserId)
            (MessageContent.TextMessageContent T mention) :: rest) =
        (tr ++ [Call.GeminiChat T,
            Call.ReplyMessage
              { ReplyToken := ReplyToken, Messages := [{ Text := env.printResponse res }] }],
          Exit.returned)) ∧
    (∀ (tr : List Call) (event : Event) (rest : List Event),
      handleEvents env tr (event :: rest) =
          handleEvents env (handleEvent env tr event).1 rest ∨
        (∃ ReplyToken UserId T mention res,
          event = Event.MessageEvent ReplyToken (Source.UserSource UserId)
            (MessageContent.TextMessageContent T mention) ∧
          env.GeminiChat tr T = .ok res ∧
          handleEvents env tr (event :: rest) =
            (tr ++ [Call.GeminiChat T,
                Call.ReplyMessage
                  { ReplyToken := ReplyToken,
                    Messages := [{ Text := env.printResponse res }] }],
              Exit.returned)) ∨
        (∃ ReplyToken GroupId UserId Text mention,
          event = Event.MessageEvent ReplyToken (Source.GroupSource GroupId UserId)
            (MessageContent.TextMessageContent Text mention) ∧
          (mention = none ∨
            ∃ m, mention = some m ∧ ∃ x ∈ m.Mentionees, x.GetType = "user")) ∨
        (∃ ReplyToken source Id,
          event = Event.MessageEvent ReplyToken source
            (MessageContent.ImageMessageContent Id) ∧
          ¬ ∃ content data,
            env.GetMessageContent tr Id = .ok content ∧ content.Body = .ok data)) := by
  refine ⟨?_, ?_, ?_, ?_, ?_, ?_, ?_⟩
  · intro tr tok uid T mention rest E hE
    simp [handleEvents, handleEvent, hE]
  · intro tr tok source Id content data rest E hf hr hE
    simp [handleEvents, handleEvent, hf, hr, hE, replyText_eq]
  · intro f tr evs
    exact handleEvents_reply_irrelevant env f evs tr
  · intro tr tok source id t rest
    simp [handleEvents, handleEvent, replyText_eq]
  · intro tr tok source Id content data rest D hf hr hD
    simp [handleEvents, handleEvent, hf, hr, hD, replyText_eq]
  · intro tr tok uid T mention rest res hres
    simp [handleEvents, handleEvent, hres, replyText_eq]
  · intro tr event rest
    cases event with
    | other => left; simp [handleEvents, handleEvent]
    | MessageEvent tok source message =>
      cases message with
      | other => left; simp [handleEvents, handleEvent]
      | StickerMessageContent id t => left; simp [handleEvents, handleEvent, replyText_eq]
      | ImageMessageContent id =>
        cases hf : env.GetMessageContent tr id with
        | error e =>
          right; right; right
          exact ⟨tok, source, id, rfl, by simp [hf]⟩
        | ok content =>
          cases hr : content.Body with
          | error e =>
            right; right; right
            refine ⟨tok, source, id, rfl, ?_⟩
            rintro ⟨c, d, hc, hd⟩
            rw [hf] at hc
            cases hc
            rw [hr] at hd
            cases hd
          | ok data => left; simp [handleEvents, handleEvent, hf, hr, replyText_eq]
      | TextMessageContent text mention =>
        cases source with
        | RoomSource r u => left; simp [handleEvents, handleEvent]
        | other => left; simp [handleEvents, handleEvent]
        | UserSource u =>
          cases hc : env.GeminiChat tr text with
          | error e => left; simp [handleEvents, handleEvent, hc]
          | ok res =>
            right; left
            exact ⟨tok, u, text, mention, res, rfl, hc,
              by simp [handleEvents, handleEvent, hc, replyText_eq]⟩
        | GroupSource g u =>
          cases mention with
          | none =>
            right; right; left
            exact ⟨tok, g, u, text, none, rfl, Or.inl rfl⟩
          | some m =>
            by_cases hm : ∃ x ∈ m.Mentionees, x.GetType = "user"
            · right; right; left
              exact ⟨tok, g, u, text, some m, rfl, Or.inr ⟨m, rfl, hm⟩⟩
            · left
              have hno : ∀ x ∈ m.Mentionees, x.GetType ≠ "user" :=
                fun x hx hu => hm ⟨x, hx, hu⟩
              simp [handleEvents, handleEvent,
                scanMentionees_no_user env tr tok m.Mentionees hno]

/-- C7, amended, at the batch of a DirectUser text "hi" and a sticker: with
an AI call that fails the sticker is dispatched next, and with a reply API
that fails the batch ends after the reply attempt to the text. -/
theorem errors_and_batch_end_witness :
    handleEvents envChatFails []
        (Event.MessageEvent "tok1" (Source.UserSource "U1")
            (MessageContent.TextMessageContent "hi" none) ::
          [Event.MessageEvent "tok2" (Source.UserSource "U1")
            (MessageContent.StickerMessageContent "52002734" "STATIC")]) =
      handleEvents envChatFails ([] ++ [Call.GeminiChat "hi"])
        [Event.MessageEvent "tok2" (Source.UserSource "U1")
          (MessageContent.StickerMessageContent "52002734" "STATIC")] ∧
    handleEvents envReplyFails []
        (Event.MessageEvent "tok1" (Source.UserSource "U1")
            (MessageContent.TextMessageContent "hi" none) ::
          [Event.MessageEvent "tok2" (Source.UserSource "U1")
            (MessageContent.StickerMessageContent "52002734" "STATIC")]) =
      ([] ++ [Call.GeminiChat "hi",
          Call.ReplyMessage
            { ReplyToken := "tok1",
              Messages := [{ Text := envReplyFails.printResponse "re:hi" }] }],
        Exit.returned) :=
  ⟨(errors_and_batch_end envChatFails).1 [] "tok1" "U1" "hi" none _ "deadline exceeded" rfl,
   (errors_and_batch_end envReplyFails).2.2.2.2.2.1 [] "tok1" "U1" "hi" none _ "re:hi" rfl⟩

/-- C8, at its failing input: for an image message whose content is fetched
and whose body cannot be read, the handler ends in the `os.Exit(1)` of
`log.Fatal` (line 159), after the content fetch and before any reply. -/
theorem read_failure_exits_process :
    callback envReadFails (.ok { Events :=
        [Event.MessageEvent "tok" (Source.UserSource "U1")
          (MessageContent.ImageMessageContent "m1")] }) =
      { calls := [Call.GetMessageContent "m1"], header := none, exit := Exit.exited } := by
  rfl

/-- C9, at its failing input: for a text message from a Group source that
carries no mention object, reading `message.Mention.Mentionees` (line 98)
dereferences the nil pointer: the handler panics, without any call, and the
later events of the batch are not dispatched. -/
theorem group_text_without_mention_panics {R : Type} (env : Env R) (tr : List Call)
    (ReplyToken GroupId UserId Text : String) (rest : List Event) :
    handleEvents env tr
        (Event.MessageEvent ReplyToken (Source.GroupSource GroupId UserId)
          (MessageContent.TextMessageContent Text none) :: rest) =
      (tr, Exit.panicked) := by
  simp [handleEvents, handleEvent]

/-! ## Replies and reply tokens -/

/-- C10: for every batch and every outcome of the collaborators, one event
adds at most one reply, and only with its own reply token; the reply tokens
used in a request are, in order, a sublist of the reply tokens of the
events, so that no token is used twice when the events have distinct tokens;
text events from a Room source, unsupported message contents and unsupported
events add no call. -/
theorem replies_follow_events {R : Type} (env : Env R) :
    (∀ (tr : List Call) (ev : Event), ∃ cs, (handleEvent env tr ev).1 = tr ++ cs ∧
      (replies cs).length ≤ 1 ∧ ∀ req ∈ replies cs, ev.token? = some req.ReplyToken) ∧
    (∀ cb : CallbackRequest,
      List.Sublist (replyTokens (callback env (.ok cb)).calls) (eventTokens cb.Events)) ∧
    (∀ cb : CallbackRequest, (eventTokens cb.Events).Nodup →
      (replyTokens (callback env (.ok cb)).calls).Nodup) ∧
    (∀ (tr : List Call) (ReplyToken RoomId UserId Text : String) (mention : Option Mention),
      handleEvent env tr
          (Event.MessageEvent ReplyToken (Source.RoomSource RoomId UserId)
            (MessageContent.TextMessageContent Text mention)) = (tr, Flow.next)) ∧
    (∀ (tr : List Call) (ReplyToken : String) (source : Source),
      handleEvent env tr (Event.MessageEvent ReplyToken source MessageContent.other) =
        (tr, Flow.next)) ∧
    (∀ tr : List Call, handleEvent env tr Event.other = (tr, Flow.next)) := by
  have hsub : ∀ cb : CallbackRequest,
      List.Sublist (replyTokens (callback env (.ok cb)).calls) (eventTokens cb.Events) := by
    intro cb
    obtain ⟨s, hs, hsub⟩ := handleEvents_replyTokens env cb.Events []
    have h0 : replyTokens ([] : List Call) = [] := rfl
    simp only [callback]
    rw [hs, h0, List.nil_append]
    exact hsub
  refine ⟨?_, hsub, fun cb hnd => (hsub cb).nodup hnd, ?_, ?_, ?_⟩
  · intro tr ev
    obtain ⟨cs, hcs, hrep⟩ := handleEvent_calls env tr ev
    refine ⟨cs, hcs, ?_⟩
    rcases hrep with h | ⟨tok, text, htok, h⟩
    · simp [h]
    · simp [h, htok]
  · intro tr tok rid uid text mention
    rfl
  · intro tr tok source
    rfl
  · intro tr
    rfl

/-- C10, at a batch of a sticker, a Room text, an image, a Group text that
mentions the bot twice and a second sticker: one reply for the first
sticker, one for the image, and the handler panics at the Group text. -/
theorem replies_follow_events_witness :
    replyTokens (callback envOk (.ok { Events :=
        [Event.MessageEvent "tok1" (Source.UserSource "U1")
            (MessageContent.StickerMessageContent "52002734" "STATIC"),
          Event.MessageEvent "tok2" (Source.RoomSource "R1" "U1")
            (MessageContent.TextMessageContent "hello" none),
          Event.MessageEvent "tok3" (Source.UserSource "U1")
            (MessageContent.ImageMessageContent "m1"),
          Event.MessageEvent "tok4" (Source.GroupSource "G1" "U1")
            (MessageContent.TextMessageContent "@bot @bot"
              (some { Mentionees :=
                [MentioneeInterface.other "user", MentioneeInterface.other "user"] })),
          Event.MessageEvent "tok5" (Source.UserSource "U1")
            (MessageContent.StickerMessageContent "52002735" "STATIC")] })).calls =
      ["tok1", "tok3"] ∧
    (replyTokens (callback envOk (.ok { Events :=
        [Event.MessageEvent "tok1" (Source.UserSource "U1")
            (MessageContent.StickerMessageContent "52002734" "STATIC"),
          Event.MessageEvent "tok2" (Source.RoomSource "R1" "U1")
            (MessageContent.TextMessageContent "hello" none),
          Event.MessageEvent "tok3" (Source.UserSource "U1")
            (MessageContent.ImageMessageContent "m1"),
          Event.MessageEvent "tok4" (Source.GroupSource "G1" "U1")
            (MessageContent.TextMessageContent "@bot @bot"
              (some { Mentionees :=
                [MentioneeInterface.other "user", MentioneeInterface.other "user"] })),
          Event.MessageEvent "tok5" (Source.UserSource "U1")
            (MessageContent.StickerMessageContent "52002735" "STATIC")] })).calls).Nodup :=
  ⟨by decide, (replies_follow_events envOk).2.2.1 _ (by decide)⟩

end LinebotGemini
